import Mathlib

set_option maxRecDepth 10000

/-!
Shallow embedding of the typing-practice trainer in
`src/components/TypingPractice.tsx` (the primary variant) and the second
observed variant of the same component (`unnamed/part_000`), together with
the fingering lookup in `src/utils/fingeringMap.ts`.

Modelling conventions:
* Passages are lists of characters (all passages in the catalog are ASCII,
  so JavaScript string indexing coincides with list indexing).
* A key-down event carries the `key` identifier string and the three
  modifier flags read by the handler.
* React state updates inside one handler invocation are sequenced into a
  pure function `State → State`; the completion effect (the `useEffect`
  at lines 119-138) re-runs after every state update, so the step relation
  applies it after each keystroke or timer tick.
* `Math.round` on the non-negative numbers occurring here is
  `round : ℚ → ℤ` (round half up); the divisions are modelled exactly
  over `ℚ`.
* The `id` and `timestamp` fields of a saved result come from the wall
  clock (`Date.now`, `toLocaleString`); they are display-only and outside
  the pure model, so `SavedResult` carries the remaining six fields.
-/

namespace TypingFingers

/-- The running counters of a session, `interface Stats` (lines 11-17). -/
structure Stats where
  elapsed : Nat
  correctChars : Nat
  totalChars : Nat
  errors : Nat
  backspaces : Nat
deriving DecidableEq

/-- A logged session summary, `interface SavedResult` (lines 19-28) minus
the clock-derived `id` and `timestamp` fields. -/
structure SavedResult where
  text : List Char
  time : Nat
  wpm : Int
  accuracy : Int
  errors : Nat
  backspaces : Nat
deriving DecidableEq

/-- A key-down event as read by `handleKeyDown`: the `key` identifier
string and the `ctrlKey` / `metaKey` / `altKey` modifier flags. -/
structure KeyEvent where
  key : String
  ctrlKey : Bool
  metaKey : Bool
  altKey : Bool
deriving DecidableEq

/-- The full component state: the `useState` cells of `TypingPractice`
(lines 31-43). -/
structure State where
  currentTextIndex : Nat
  currentText : List Char
  currentIndex : Nat
  stats : Stats
  isActive : Bool
  savedResults : List SavedResult
  isFinished : Bool
deriving DecidableEq

/-- The passage catalog `TEXTS` (lines 5-9). -/
def TEXTS : List (List Char) :=
  [("The quick brown fox jumps over the lazy dog. This is a pangram that contains every letter of the alphabet.").data,
   ("Practice makes perfect. Consistent typing practice helps improve speed and accuracy significantly.").data,
   ("Typing is a fundamental skill in the digital age. Learning proper fingering technique is essential.").data]

/-- The zero value of `Stats`, used by the initializer and `handleReset`. -/
def zeroStats : Stats :=
  { elapsed := 0, correctChars := 0, totalChars := 0, errors := 0, backspaces := 0 }

/-- The state of a freshly mounted component (the `useState` initializers,
lines 31-43): `currentTextIndex = 0` and `currentText = TEXTS[0]`. -/
def initState : State :=
  { currentTextIndex := 0
    currentText := TEXTS.getD 0 []
    currentIndex := 0
    stats := zeroStats
    isActive := false
    savedResults := []
    isFinished := false }

/-- A fresh session bound to a given passage: the component state after
mounting with that passage, cursor 0, all counters zero, active and
finished false (the specification operation `start(passage)`). -/
def start (passage : List Char) : State :=
  { currentTextIndex := 0
    currentText := passage
    currentIndex := 0
    stats := zeroStats
    isActive := false
    savedResults := []
    isFinished := false }

/-- WPM derivation (lines 57-59):
`elapsed > 0 ? Math.round((correctChars / 5) / (elapsed / 60)) : 0`. -/
def wpm (correctChars elapsed : Nat) : Int :=
  if 0 < elapsed then
    round (((correctChars : ℚ) / 5) / ((elapsed : ℚ) / 60))
  else 0

/-- Accuracy derivation (lines 62-65):
`totalInput > 0 ? Math.round((correctChars / totalInput) * 100) : 100`
where `totalInput = correctChars + errors`. -/
def accuracy (correctChars errors : Nat) : Int :=
  let totalInput := correctChars + errors
  if 0 < totalInput then
    round (((correctChars : ℚ) / (totalInput : ℚ)) * 100)
  else 100

/-- The `setIsActive(true)` performed on the first input of a session
(lines 71-73): a no-op when already active. -/
def setActive (s : State) : State :=
  if s.isActive then s else { s with isActive := true }

/-- The key-down handler of `src/components/TypingPractice.tsx`
(lines 67-111).  In order: the completion guard, activation, the
Backspace branch (floor at 0), the modifier / multi-character-key guard,
then the character comparison; a mismatch still advances the cursor. -/
def handleKeyDown (e : KeyEvent) (s : State) : State :=
  if h : s.currentIndex < s.currentText.length then
    let s1 := setActive s
    let targetChar := s.currentText.get ⟨s.currentIndex, h⟩
    if e.key = "Backspace" then
      if 0 < s1.currentIndex then
        { s1 with currentIndex := s1.currentIndex - 1
                  stats := { s1.stats with backspaces := s1.stats.backspaces + 1 } }
      else s1
    else if e.ctrlKey || e.metaKey || e.altKey || decide (1 < e.key.length) then
      s1
    else if e.key.data = [targetChar] then
      { s1 with currentIndex := s1.currentIndex + 1
                stats := { s1.stats with
                            correctChars := s1.stats.correctChars + 1
                            totalChars := s1.stats.totalChars + 1 } }
    else
      { s1 with currentIndex := s1.currentIndex + 1
                stats := { s1.stats with
                            errors := s1.stats.errors + 1
                            totalChars := s1.stats.totalChars + 1 } }
  else s

/-- The key-down handler of the second observed variant
(`unnamed/part_000`, lines 54-96).  Identical to the primary variant
except that the mismatch branch does not advance the cursor.  That
component has no `savedResults` / `isFinished` cells; the embedding
reuses `State` and the handler never touches those fields. -/
def part000_handleKeyDown (e : KeyEvent) (s : State) : State :=
  if h : s.currentIndex < s.currentText.length then
    let s1 := setActive s
    let targetChar := s.currentText.get ⟨s.currentIndex, h⟩
    if e.key = "Backspace" then
      if 0 < s1.currentIndex then
        { s1 with currentIndex := s1.currentIndex - 1
                  stats := { s1.stats with backspaces := s1.stats.backspaces + 1 } }
      else s1
    else if e.ctrlKey || e.metaKey || e.altKey || decide (1 < e.key.length) then
      s1
    else if e.key.data = [targetChar] then
      { s1 with currentIndex := s1.currentIndex + 1
                stats := { s1.stats with
                            correctChars := s1.stats.correctChars + 1
                            totalChars := s1.stats.totalChars + 1 } }
    else
      { s1 with stats := { s1.stats with
                            errors := s1.stats.errors + 1
                            totalChars := s1.stats.totalChars + 1 } }
  else s

/-- One firing of the one-second timer (lines 46-54): the interval runs
exactly while `isActive` and `currentIndex > 0`, and each firing adds one
second to `elapsed`. -/
def tick (s : State) : State :=
  if s.isActive && decide (0 < s.currentIndex) then
    { s with stats := { s.stats with elapsed := s.stats.elapsed + 1 } }
  else s

/-- The auto-end effect (lines 119-138): after a state update, if the
cursor has reached the end of the passage while active and not yet
finished (and some progress was made), push a summary onto
`savedResults`, set `isFinished`, clear `isActive`. -/
def completionCheck (s : State) : State :=
  if s.currentText.length ≤ s.currentIndex && s.isActive && !s.isFinished then
    if 0 < s.stats.elapsed || 0 < s.currentIndex then
      let newResult : SavedResult :=
        { text := s.currentText.take s.currentIndex
          time := s.stats.elapsed
          wpm := wpm s.stats.correctChars s.stats.elapsed
          accuracy := accuracy s.stats.correctChars s.stats.errors
          errors := s.stats.errors
          backspaces := s.stats.backspaces }
      { s with savedResults := newResult :: s.savedResults
               isFinished := true
               isActive := false }
    else s
  else s

/-- The two classes of events that drive a session between resets. -/
inductive Event where
  | key (e : KeyEvent)
  | tick
deriving DecidableEq

/-- One event processed to completion: the handler runs, then the
completion effect re-evaluates on the updated state. -/
def step (ev : Event) (s : State) : State :=
  match ev with
  | Event.key e => completionCheck (handleKeyDown e s)
  | Event.tick => completionCheck (tick s)

/-- `handleReset` (lines 140-151): cursor 0, all counters zero, inactive,
unfinished.  `savedResults` is not assigned. -/
def handleReset (s : State) : State :=
  { s with currentIndex := 0
           stats := zeroStats
           isActive := false
           isFinished := false }

/-- `handleSelectText` (lines 153-156): stores the selected index and
resets.  The `currentText` cell is declared without a setter
(`const [currentText] = useState(TEXTS[currentTextIndex])`, line 32), so
the bound passage never changes after mount; only the index changes. -/
def handleSelectText (index : Nat) (s : State) : State :=
  handleReset { s with currentTextIndex := index }

/-- The completion predicate (line 171): `currentIndex >= currentText.length`. -/
def isCompleted (s : State) : Prop :=
  s.currentText.length ≤ s.currentIndex

instance (s : State) : Decidable (isCompleted s) :=
  inferInstanceAs (Decidable (_ ≤ _))

/-- States reachable from the freshly mounted component by keystroke and
timer events alone (no reset, no selection). -/
inductive Reachable : State → Prop where
  | init : Reachable initState
  | next (ev : Event) (s : State) : Reachable s → Reachable (step ev s)

/-- The §8 scenario state: a fresh session on passage "ab" after the
keystrokes x (wrong) then b (correct). -/
def scenarioAB : State :=
  step (Event.key ⟨"b", false, false, false⟩)
    (step (Event.key ⟨"x", false, false, false⟩) (start ("ab").data))

/-! Frame lemmas for the individual state transformers. -/

theorem setActive_currentText (s : State) : (setActive s).currentText = s.currentText := by
  unfold setActive; split <;> rfl

theorem setActive_currentIndex (s : State) : (setActive s).currentIndex = s.currentIndex := by
  unfold setActive; split <;> rfl

theorem setActive_stats (s : State) : (setActive s).stats = s.stats := by
  unfold setActive; split <;> rfl

theorem setActive_savedResults (s : State) : (setActive s).savedResults = s.savedResults := by
  unfold setActive; split <;> rfl

theorem setActive_isFinished (s : State) : (setActive s).isFinished = s.isFinished := by
  unfold setActive; split <;> rfl

theorem setActive_isActive (s : State) : (setActive s).isActive = true := by
  unfold setActive; split <;> simp_all

theorem handleKeyDown_currentText (e : KeyEvent) (s : State) :
    (handleKeyDown e s).currentText = s.currentText := by
  unfold handleKeyDown; dsimp only
  split_ifs <;> simp [setActive_currentText]

theorem handleKeyDown_savedResults (e : KeyEvent) (s : State) :
    (handleKeyDown e s).savedResults = s.savedResults := by
  unfold handleKeyDown; dsimp only
  split_ifs <;> simp [setActive_savedResults]

theorem handleKeyDown_isFinished (e : KeyEvent) (s : State) :
    (handleKeyDown e s).isFinished = s.isFinished := by
  unfold handleKeyDown; dsimp only
  split_ifs <;> simp [setActive_isFinished]

theorem handleKeyDown_cursor_le (e : KeyEvent) (s : State)
    (h : s.currentIndex ≤ s.currentText.length) :
    (handleKeyDown e s).currentIndex ≤ s.currentText.length := by
  unfold handleKeyDown; dsimp only
  split_ifs <;> simp_all [setActive_currentIndex] <;> omega

theorem handleKeyDown_correct_le (e : KeyEvent) (s : State)
    (h : s.stats.correctChars ≤ s.currentIndex + s.stats.backspaces) :
    (handleKeyDown e s).stats.correctChars ≤
      (handleKeyDown e s).currentIndex + (handleKeyDown e s).stats.backspaces := by
  unfold handleKeyDown; dsimp only
  split_ifs <;> simp_all [setActive_stats, setActive_currentIndex] <;> omega

theorem tick_currentText (s : State) : (tick s).currentText = s.currentText := by
  unfold tick; split <;> rfl

theorem tick_currentIndex (s : State) : (tick s).currentIndex = s.currentIndex := by
  unfold tick; split <;> rfl

theorem tick_correctChars (s : State) :
    (tick s).stats.correctChars = s.stats.correctChars := by
  unfold tick; split <;> rfl

theorem tick_backspaces (s : State) :
    (tick s).stats.backspaces = s.stats.backspaces := by
  unfold tick; split <;> rfl

theorem tick_savedResults (s : State) : (tick s).savedResults = s.savedResults := by
  unfold tick; split <;> rfl

theorem tick_isFinished (s : State) : (tick s).isFinished = s.isFinished := by
  unfold tick; split <;> rfl

theorem completionCheck_currentText (s : State) :
    (completionCheck s).currentText = s.currentText := by
  unfold completionCheck; dsimp only
  split_ifs <;> rfl

theorem completionCheck_currentIndex (s : State) :
    (completionCheck s).currentIndex = s.currentIndex := by
  unfold completionCheck; dsimp only
  split_ifs <;> rfl

theorem completionCheck_stats (s : State) :
    (completionCheck s).stats = s.stats := by
  unfold completionCheck; dsimp only
  split_ifs <;> rfl

theorem completionCheck_of_finished (s : State) (h : s.isFinished = true) :
    completionCheck s = s := by
  unfold completionCheck
  rw [h]
  simp

theorem step_cursor_le (ev : Event) (s : State)
    (h : s.currentIndex ≤ s.currentText.length) :
    (step ev s).currentIndex ≤ (step ev s).currentText.length := by
  cases ev with
  | key e =>
      simp only [step, completionCheck_currentIndex, completionCheck_currentText,
        handleKeyDown_currentText]
      exact handleKeyDown_cursor_le e s h
  | tick =>
      simp only [step, completionCheck_currentIndex, completionCheck_currentText,
        tick_currentIndex, tick_currentText]
      exact h

/-! Claim theorems. -/

/-- C1: the code contradicts the claim.  `handleSelectText 1` on the
freshly mounted component stores the selected index and resets the
session (cursor 0, counters zero, active and finished false), but the
passage the session compares against stays `TEXTS[0]` instead of becoming
`TEXTS[1]`: the `currentText` cell is created without a setter
(line 32), so its initial value is never replaced. -/
theorem selectText_does_not_rebind_passage :
    (handleSelectText 1 initState).currentTextIndex = 1 ∧
    (handleSelectText 1 initState).currentText ≠ TEXTS.getD 1 [] ∧
    (handleSelectText 1 initState).currentText = TEXTS.getD 0 [] ∧
    (handleSelectText 1 initState).currentIndex = 0 ∧
    (handleSelectText 1 initState).stats = zeroStats ∧
    (handleSelectText 1 initState).isActive = false ∧
    (handleSelectText 1 initState).isFinished = false :=
  ⟨rfl, by decide, rfl, rfl, rfl, rfl, rfl⟩

/-- C2 counterexample: the state reached from a fresh session by the
keystroke T (the correct first character of the bound passage) followed
by Backspace is reachable, yet has correctCount 1 and cursor 0, so
`correctCount <= cursor` fails after a Backspace that follows a correct
keystroke. -/
theorem correct_le_cursor_fails :
    Reachable (step (Event.key ⟨"Backspace", false, false, false⟩)
        (step (Event.key ⟨"T", false, false, false⟩) initState)) ∧
    ¬ ((step (Event.key ⟨"Backspace", false, false, false⟩)
          (step (Event.key ⟨"T", false, false, false⟩) initState)).stats.correctChars ≤
        (step (Event.key ⟨"Backspace", false, false, false⟩)
          (step (Event.key ⟨"T", false, false, false⟩) initState)).currentIndex) :=
  ⟨Reachable.next _ _ (Reachable.next _ _ Reachable.init), by decide⟩

/-- C2 amended: in every state reachable from a fresh session by
keystroke and tick events, `correctCount <= cursor + backspaceCount`
holds (each Backspace moves the cursor back by at most one while
recording the move in backspaceCount, so the corrected-character count
never exceeds cursor plus backspaces). -/
theorem correct_le_cursor_plus_backspaces (s : State) (h : Reachable s) :
    s.stats.correctChars ≤ s.currentIndex + s.stats.backspaces := by
  induction h with
  | init => exact Nat.le_refl 0
  | next ev s hs ih =>
      cases ev with
      | key e =>
          simp only [step, completionCheck_stats, completionCheck_currentIndex]
          exact handleKeyDown_correct_le e s ih
      | tick =>
          simp only [step, completionCheck_stats, completionCheck_currentIndex,
            tick_correctChars, tick_backspaces, tick_currentIndex]
          exact ih

/-- C2 amended, witness: the bound evaluated on the concrete reachable
state after one correct keystroke. -/
theorem correct_le_cursor_plus_backspaces_witness :
    (step (Event.key ⟨"T", false, false, false⟩) initState).stats.correctChars ≤
      (step (Event.key ⟨"T", false, false, false⟩) initState).currentIndex +
        (step (Event.key ⟨"T", false, false, false⟩) initState).stats.backspaces :=
  correct_le_cursor_plus_backspaces _ (Reachable.next _ _ Reachable.init)

/-- C3 counterexample: three concrete events violating the claim that a
modifier-carrying or non-single-character key leaves the state unchanged.
A ctrl+a on the fresh (inactive) session flips the active flag, because
`setIsActive(true)` runs before the modifier guard; a ctrl+Backspace
moves the cursor, because the Backspace branch runs before the modifier
guard; an empty key identifier (not a single character) falls through to
the comparison and increments errorCount. -/
theorem modifier_key_not_inert :
    (handleKeyDown ⟨"a", true, false, false⟩ initState).isActive ≠ initState.isActive ∧
    (handleKeyDown ⟨"Backspace", true, false, false⟩
        { initState with currentIndex := 1, isActive := true }).currentIndex ≠
      ({ initState with currentIndex := 1, isActive := true } : State).currentIndex ∧
    (handleKeyDown ⟨"", false, false, false⟩
        { initState with isActive := true }).stats.errors ≠
      ({ initState with isActive := true } : State).stats.errors :=
  ⟨by decide, by decide, by decide⟩

/-- C3 amended: for every state with cursor below the passage length, a
key event that carries a ctrl/meta/alt modifier or whose key identifier
is longer than one character, and whose key is not Backspace, leaves
cursor, all counters, the result log and the finished flag unchanged;
the active flag is true afterwards (set by the first-input activation,
unchanged when already active). -/
theorem modifier_or_special_key_frame (s : State) (e : KeyEvent)
    (hcur : s.currentIndex < s.currentText.length)
    (hmod : e.ctrlKey = true ∨ e.metaKey = true ∨ e.altKey = true ∨ 1 < e.key.length)
    (hbs : e.key ≠ "Backspace") :
    (handleKeyDown e s).currentIndex = s.currentIndex ∧
    (handleKeyDown e s).stats = s.stats ∧
    (handleKeyDown e s).isFinished = s.isFinished ∧
    (handleKeyDown e s).savedResults = s.savedResults ∧
    (handleKeyDown e s).isActive = true := by
  have hc : (e.ctrlKey || e.metaKey || e.altKey || decide (1 < e.key.length)) = true := by
    rcases hmod with h | h | h | h <;> simp [h]
  unfold handleKeyDown
  rw [dif_pos hcur]
  dsimp only
  rw [if_neg hbs, if_pos hc]
  exact ⟨setActive_currentIndex s, setActive_stats s, setActive_isFinished s,
    setActive_savedResults s, setActive_isActive s⟩

/-- C3 amended, witness: ctrl+a on the fresh session. -/
theorem modifier_or_special_key_frame_witness :
    (handleKeyDown ⟨"a", true, false, false⟩ initState).currentIndex = initState.currentIndex ∧
    (handleKeyDown ⟨"a", true, false, false⟩ initState).stats = initState.stats ∧
    (handleKeyDown ⟨"a", true, false, false⟩ initState).isFinished = initState.isFinished ∧
    (handleKeyDown ⟨"a", true, false, false⟩ initState).savedResults = initState.savedResults ∧
    (handleKeyDown ⟨"a", true, false, false⟩ initState).isActive = true :=
  modifier_or_special_key_frame initState ⟨"a", true, false, false⟩
    (by decide) (Or.inl rfl) (by decide)

/-- C4: once the finished flag is set, processing any further event
(keystroke or tick, each followed by the re-evaluation of the completion
check) leaves the result log unchanged, so at most one summary is
appended per session lifetime until an explicit reset. -/
theorem finished_no_further_append (s : State) (ev : Event)
    (h : s.isFinished = true) :
    (step ev s).savedResults = s.savedResults := by
  cases ev with
  | key e =>
      simp only [step]
      rw [completionCheck_of_finished _ (by rw [handleKeyDown_isFinished]; exact h)]
      exact handleKeyDown_savedResults e s
  | tick =>
      simp only [step]
      rw [completionCheck_of_finished _ (by rw [tick_isFinished]; exact h)]
      exact tick_savedResults s

/-- C4 witness: a tick on a concrete finished session. -/
theorem finished_no_further_append_witness :
    (step Event.tick { initState with isFinished := true }).savedResults =
      ({ initState with isFinished := true } : State).savedResults :=
  finished_no_further_append { initState with isFinished := true } Event.tick rfl

/-- C5: on passage "ab", the keystrokes x (mismatch, which increments
errorCount and still advances the cursor) then b (match) leave
cursor 2, correctCount 1, errorCount 1, accuracy 50, and the completion
predicate holds. -/
theorem scenario_ab_forgiving :
    scenarioAB.currentIndex = 2 ∧
    scenarioAB.stats.correctChars = 1 ∧
    scenarioAB.stats.errors = 1 ∧
    accuracy scenarioAB.stats.correctChars scenarioAB.stats.errors = 50 ∧
    isCompleted scenarioAB := by
  refine ⟨by decide, by decide, by decide, ?_, by decide⟩
  have h1 : scenarioAB.stats.correctChars = 1 := by decide
  have h2 : scenarioAB.stats.errors = 1 := by decide
  rw [h1, h2]
  unfold accuracy
  norm_num [round_eq, Int.floor_eq_iff]

/-- C7: in every state reachable from a fresh session by keystroke and
tick events, the cursor stays between 0 and the passage length: the
completion guard blocks advancing past the end and the Backspace branch
only decrements a positive cursor. -/
theorem cursor_within_bounds (s : State) (h : Reachable s) :
    0 ≤ s.currentIndex ∧ s.currentIndex ≤ s.currentText.length := by
  refine ⟨Nat.zero_le _, ?_⟩
  induction h with
  | init => exact Nat.zero_le _
  | next ev s hs ih => exact step_cursor_le ev s ih

/-- C7 witness: the bounds on the concrete reachable state after one
keystroke. -/
theorem cursor_within_bounds_witness :
    0 ≤ (step (Event.key ⟨"q", false, false, false⟩) initState).currentIndex ∧
    (step (Event.key ⟨"q", false, false, false⟩) initState).currentIndex ≤
      (step (Event.key ⟨"q", false, false, false⟩) initState).currentText.length :=
  cursor_within_bounds _ (Reachable.next _ _ Reachable.init)

/-- C6: the two observed variants of the keystroke handler differ
exactly on mismatched printable keystrokes.  There is a state and a
printable keystroke on which they produce different cursor values; on a
mismatched printable key below the end of the passage the
TypingPractice.tsx variant advances the cursor by 1 while the part_000
variant leaves it unchanged; on matching keystrokes and on Backspace the
two handlers agree on the entire resulting state. -/
theorem variants_agree_except_mismatch :
    (∃ (s : State) (e : KeyEvent),
        (handleKeyDown e s).currentIndex ≠ (part000_handleKeyDown e s).currentIndex) ∧
    (∀ (s : State) (e : KeyEvent) (h : s.currentIndex < s.currentText.length),
        e.ctrlKey = false → e.metaKey = false → e.altKey = false →
        e.key.length = 1 →
        e.key.data ≠ [s.currentText.get ⟨s.currentIndex, h⟩] →
        (handleKeyDown e s).currentIndex = s.currentIndex + 1 ∧
        (part000_handleKeyDown e s).currentIndex = s.currentIndex) ∧
    (∀ (s : State) (e : KeyEvent) (h : s.currentIndex < s.currentText.length),
        e.key.data = [s.currentText.get ⟨s.currentIndex, h⟩] →
        handleKeyDown e s = part000_handleKeyDown e s) ∧
    (∀ (s : State) (e : KeyEvent), e.key = "Backspace" →
        handleKeyDown e s = part000_handleKeyDown e s) := by
  refine ⟨⟨start ("ab").data, ⟨"x", false, false, false⟩, by decide⟩, ?_, ?_, ?_⟩
  · intro s e h hc hm ha hlen hne
    have hbs : e.key ≠ "Backspace" := by
      intro hk; rw [hk] at hlen; exact absurd hlen (by decide)
    have hmod : (e.ctrlKey || e.metaKey || e.altKey || decide (1 < e.key.length)) = false := by
      rw [hc, hm, ha, hlen]; rfl
    have hmodP : ¬ (e.ctrlKey || e.metaKey || e.altKey || decide (1 < e.key.length)) = true := by
      simp [hmod]
    unfold handleKeyDown part000_handleKeyDown
    rw [dif_pos h, dif_pos h]
    dsimp only
    rw [if_neg hbs, if_neg hbs, if_neg hmodP, if_neg hmodP, if_neg hne, if_neg hne]
    exact ⟨by simp [setActive_currentIndex], setActive_currentIndex s⟩
  · intro s e h heq
    have hlen : e.key.length = 1 := by
      show e.key.data.length = 1
      rw [heq]; rfl
    have hbs : e.key ≠ "Backspace" := by
      intro hk; rw [hk] at hlen; exact absurd hlen (by decide)
    unfold handleKeyDown part000_handleKeyDown
    rw [dif_pos h, dif_pos h]
    dsimp only
    rw [if_neg hbs, if_neg hbs]
    by_cases hmod : (e.ctrlKey || e.metaKey || e.altKey || decide (1 < e.key.length)) = true
    · rw [if_pos hmod, if_pos hmod]
    · rw [if_neg hmod, if_neg hmod, if_pos heq, if_pos heq]
  · intro s e hk
    unfold handleKeyDown part000_handleKeyDown
    by_cases h : s.currentIndex < s.currentText.length
    · rw [dif_pos h, dif_pos h]
      dsimp only
      rw [if_pos hk, if_pos hk]
    · rw [dif_neg h, dif_neg h]

/-- C6 witness: the keystroke x against the first character of passage
"ab" on a fresh session, a concrete mismatched printable keystroke on
which the two handlers give different cursors. -/
theorem variants_agree_except_mismatch_witness :
    (handleKeyDown ⟨"x", false, false, false⟩ (start ("ab").data)).currentIndex =
      (start ("ab").data).currentIndex + 1 ∧
    (part000_handleKeyDown ⟨"x", false, false, false⟩ (start ("ab").data)).currentIndex =
      (start ("ab").data).currentIndex :=
  variants_agree_except_mismatch.2.1 (start ("ab").data) ⟨"x", false, false, false⟩
    (by decide) rfl rfl rfl (by decide) (by decide)

/-- C8: the accuracy computation returns 100 when there were no typed
character events, and the rounded percentage of correct events
otherwise; being a plain function of its two arguments, it is pure. -/
theorem accuracy_formula (c e : Nat) :
    (c + e = 0 → accuracy c e = 100) ∧
    (c + e ≠ 0 → accuracy c e = round (((c : ℚ) / ((c : ℚ) + (e : ℚ))) * 100)) := by
  constructor
  · intro h
    unfold accuracy
    rw [if_neg (by omega)]
  · intro h
    unfold accuracy
    dsimp only
    rw [if_pos (Nat.pos_of_ne_zero h), Nat.cast_add]

/-- C8 witness: the two branches evaluated at (0,0) and (1,1). -/
theorem accuracy_formula_witness :
    accuracy 0 0 = 100 ∧
    accuracy 1 1 = round (((1 : ℚ) / ((1 : ℚ) + (1 : ℚ))) * 100) :=
  ⟨(accuracy_formula 0 0).1 rfl, (accuracy_formula 1 1).2 (by decide)⟩

/-- C9: a Backspace arriving at cursor 0 leaves the cursor at 0 and
leaves correctCount, errorCount and backspaceCount unchanged: the
decrement branch is guarded by cursor > 0, so the no-op backspace does
not increment backspaceCount. -/
theorem backspace_at_zero (s : State) (e : KeyEvent)
    (hk : e.key = "Backspace") (h0 : s.currentIndex = 0) :
    (handleKeyDown e s).currentIndex = 0 ∧
    (handleKeyDown e s).stats.correctChars = s.stats.correctChars ∧
    (handleKeyDown e s).stats.errors = s.stats.errors ∧
    (handleKeyDown e s).stats.backspaces = s.stats.backspaces := by
  unfold handleKeyDown
  split
  · dsimp only
    simp [setActive_currentIndex, setActive_stats, h0]
  · rw [h0]
    exact ⟨rfl, rfl, rfl, rfl⟩

/-- C9 witness: Backspace on the fresh session. -/
theorem backspace_at_zero_witness :
    (handleKeyDown ⟨"Backspace", false, false, false⟩ initState).currentIndex = 0 ∧
    (handleKeyDown ⟨"Backspace", false, false, false⟩ initState).stats.correctChars =
      initState.stats.correctChars ∧
    (handleKeyDown ⟨"Backspace", false, false, false⟩ initState).stats.errors =
      initState.stats.errors ∧
    (handleKeyDown ⟨"Backspace", false, false, false⟩ initState).stats.backspaces =
      initState.stats.backspaces :=
  backspace_at_zero initState ⟨"Backspace", false, false, false⟩ rfl rfl

/-- C10: resetting clears the cursor, the counters and the active and
finished flags, and leaves the result log exactly as it was: the reset
handler never assigns `savedResults`. -/
theorem reset_preserves_log (s : State) :
    (handleReset s).savedResults = s.savedResults ∧
    (handleReset s).currentIndex = 0 ∧
    (handleReset s).stats = zeroStats ∧
    (handleReset s).isActive = false ∧
    (handleReset s).isFinished = false :=
  ⟨rfl, rfl, rfl, rfl, rfl⟩

end TypingFingers
